import Mathlib

/-!
Verification of the real-time chat subsystem of the Thrift2 marketplace
server (src/unnamed/part_004).  The chat code lives in two separate
`io.on("connection", ...)` blocks (lines 699-738 and 801-854): socket.io
runs *both* connection callbacks for every connection, so a single
`sendMessage` (resp. `markAsRead`) event fires *both* registered
listeners, in registration order.  The model below embeds:

- the room-identifier derivation `[senderId, receiverId].sort().join("-")`
  (lines 703 and 709), with JavaScript's default lexicographic string
  comparison modelled as code-point lexicographic order on the character
  list (these agree on basic-multilingual-plane strings);
- the Mongoose `MessageSchema` (lines 139-144: `sender`, `receiver`,
  `text` all required, `timestamp` defaulted; the schema declares *no*
  `read` field) and `message.save()` with its required-field validation,
  which runs before any write;
- `Message.findByIdAndUpdate(messageId, { read: true })` (lines 731 and
  828), modelled as writing the `read` path on the matching document and
  resolving without error when no document matches;
- the first `sendMessage` listener (lines 708-714: save, then broadcast
  `receiveMessage` to the room), the second `sendMessage` listener
  (lines 805-823: save, then email via `sendEmailNotification` when the
  receiver is not in `onlineUsers`, else emit to the receiver), the
  `markAsRead` listeners (730-733 and 827-830: update then an
  unconditional global `messageRead` emit), and the `joinRoom` listener
  (702-706: unconditional `socket.join(roomId)`, no validation);
- `sendEmailNotification` (lines 789-798, an awaited
  `transporter.sendMail` with no try/catch around its call site);
- the chat-history endpoint `GET /api/chat/:userId` (lines 741-750:
  a `$or` filter over sender/receiver, sorted `{ timestamp: 1 }`).

Fallible collaborators (the MongoDB write and the SMTP transport) are
modelled by an environment of success flags; an async listener body that
throws is modelled as a handler result carrying an error, with the state
reached so far and no further effects.
-/

/-- Code-point lexicographic comparison of character lists; this is the
order JavaScript's default `Array.prototype.sort` uses on strings
(UTF-16 code-unit order, which agrees with code-point order on BMP
strings such as the user ids compared here). -/
def lexLe : List Char → List Char → Bool
  | [], _ => true
  | _ :: _, [] => false
  | a :: as, b :: bs => if a < b then true else if b < a then false else lexLe as bs

/-- JavaScript string comparison `a <= b` used by `sort()`. -/
def jsLe (a b : String) : Bool := lexLe a.data b.data

/-- `[a, b].sort()` for two strings, as JavaScript evaluates it. -/
def jsSortPair (a b : String) : List String := if jsLe a b then [a, b] else [b, a]

/-- `[senderId, receiverId].sort().join("-")` — the conversation key /
room identifier computed at part_004 lines 703 and 709. -/
def roomId (a b : String) : String := String.intercalate "-" (jsSortPair a b)

/-- A document of the `Message` collection.  The schema (part_004 lines
139-144) declares `sender`, `receiver`, `text` (all required) and
`timestamp` (defaulted to the save time).  It declares no `read` field;
`read` is the path the `markAsRead` listeners write via
`findByIdAndUpdate`, so it is carried here as an `Option Bool` that a
freshly saved document leaves absent (`none`). -/
structure Message where
  id : Nat
  sender : String
  receiver : String
  text : String
  timestamp : Nat
  read : Option Bool
deriving DecidableEq

/-- A document of the `User` collection, restricted to the fields the
chat code reads (`_id` and `email`, part_004 lines 813-815). -/
structure UserRec where
  uid : String
  email : String
deriving DecidableEq

/-- Server-side state touched by the chat listeners: the `Message`
collection (in insertion order, with the id counter), counters of
persistence attempts (`save()` calls) and Notification Gateway
invocations (`sendMail` calls), the `User` collection, and the rooms
this socket has joined. -/
structure ChatState where
  store : List Message
  nextId : Nat
  saveAttempts : Nat
  emailAttempts : Nat
  users : List UserRec
  joinedRooms : List String
deriving DecidableEq

/-- Availability of the fallible collaborators: whether the MongoDB
write succeeds and whether the SMTP transport succeeds. -/
structure Env where
  saveOk : Bool
  emailOk : Bool
deriving DecidableEq

/-- Errors a listener body can reject with: Mongoose required-field
validation failing inside `save()`, the storage layer rejecting the
write, or `transporter.sendMail` failing. -/
inductive ChatError where
  | validationError
  | persistenceError
  | emailError
deriving DecidableEq

/-- Observable outbound events: `io.to(roomId).emit("receiveMessage", m)`
(line 713), `io.to(receiverId).emit("receiveMessage", m)` (line 821),
the global `io.emit("messageRead", { messageId })` (lines 732 and 829),
and a successfully delivered notification email (line 797). -/
inductive Effect where
  | roomBroadcast (room : String) (m : Message)
  | directMessage (userId : String) (m : Message)
  | messageRead (messageId : Nat)
  | email (addr : String) (body : String)
deriving DecidableEq

def isEmailEffect : Effect → Bool
  | Effect.email _ _ => true
  | _ => false

/-- `sender`, `receiver` and `text` are `required` in the schema, so
Mongoose validation (run inside `save()`, before the write) rejects a
document in which any of them is empty. -/
def validMessage (senderId receiverId text : String) : Bool :=
  (senderId != "") && (receiverId != "") && (text != "")

/-- `new Message({ sender, receiver, text })` followed by
`await message.save()`.  Every call is a persistence attempt; validation
runs first (no document is written for an invalid one), then the write
either succeeds — appending a document with a fresh id, the current time
as `timestamp` and no `read` field — or is rejected by the store. -/
def saveMessage (env : Env) (st : ChatState) (senderId receiverId text : String)
    (now : Nat) : ChatState × Except ChatError Message :=
  if validMessage senderId receiverId text then
    if env.saveOk then
      ({ st with
          store := st.store ++ [⟨st.nextId, senderId, receiverId, text, now, none⟩],
          nextId := st.nextId + 1,
          saveAttempts := st.saveAttempts + 1 },
        Except.ok ⟨st.nextId, senderId, receiverId, text, now, none⟩)
    else
      ({ st with saveAttempts := st.saveAttempts + 1 },
        Except.error ChatError.persistenceError)
  else
    ({ st with saveAttempts := st.saveAttempts + 1 },
      Except.error ChatError.validationError)

/-- `User.findById(receiverId)` (part_004 line 813). -/
def findById (users : List UserRec) (uid : String) : Option UserRec :=
  users.find? (fun u => u.uid == uid)

/-- `sendEmailNotification(to, message)` (part_004 lines 789-798): one
`transporter.sendMail` invocation, which either delivers the email or
rejects; either way the Notification Gateway was invoked once. -/
def sendEmailNotification (env : Env) (st : ChatState) (addr body : String) :
    ChatState × List Effect × Option ChatError :=
  if env.emailOk then
    ({ st with emailAttempts := st.emailAttempts + 1 }, [Effect.email addr body], none)
  else
    ({ st with emailAttempts := st.emailAttempts + 1 }, [], some ChatError.emailError)

/-- Outcome of one async listener body: the state it reached, the events
it emitted, and the error it rejected with (if any). -/
structure HandlerResult where
  state : ChatState
  effects : List Effect
  error : Option ChatError
deriving DecidableEq

/-- First `sendMessage` listener (part_004 lines 708-714): compute the
room id, save the message, and — only if the awaited save succeeded —
broadcast `receiveMessage` to the room.  A rejected save aborts the
body before the emit. -/
def sendMessageHandler1 (env : Env) (st : ChatState) (senderId receiverId text : String)
    (now : Nat) : HandlerResult :=
  match saveMessage env st senderId receiverId text now with
  | (st1, Except.error e) => ⟨st1, [], some e⟩
  | (st1, Except.ok m) => ⟨st1, [Effect.roomBroadcast (roomId senderId receiverId) m], none⟩

/-- Second `sendMessage` listener (part_004 lines 805-823): save, then
consult `onlineUsers[receiverId]`.  If the receiver has no live socket,
look the receiver up in the `User` collection and — when found — await
`sendEmailNotification(receiver.email, text)`; a rejection there aborts
the body (there is no try/catch).  If the receiver has a live socket,
emit `receiveMessage` to them.

The `onlineUsers` map itself is bound nowhere in the repository (line
810 reads it with the comment "Assuming onlineUsers is a map of userId
-> socket").  Modelled from the spec: the Presence Registry of spec
§4.2, abstracted to the only question the listener asks of it — whether
the participant currently has a live connection. -/
def sendMessageHandler2 (env : Env) (onlineUsers : String → Bool) (st : ChatState)
    (senderId receiverId text : String) (now : Nat) : HandlerResult :=
  match saveMessage env st senderId receiverId text now with
  | (st1, Except.error e) => ⟨st1, [], some e⟩
  | (st1, Except.ok m) =>
    if onlineUsers receiverId then
      ⟨st1, [Effect.directMessage receiverId m], none⟩
    else
      match findById st1.users receiverId with
      | some u =>
        match sendEmailNotification env st1 u.email text with
        | (st2, effs, none) => ⟨st2, effs, none⟩
        | (st2, _, some e) => ⟨st2, [], some e⟩
      | none => ⟨st1, [], none⟩

/-- Combined outcome of dispatching one inbound event to every listener
registered for it. -/
structure DispatchResult where
  state : ChatState
  effects : List Effect
  errors : List ChatError
deriving DecidableEq

/-- One inbound `sendMessage` event: both connection blocks registered a
listener for it, so both bodies run, in registration order; a rejection
in one body does not stop the other. -/
def dispatchSendMessage (env : Env) (onlineUsers : String → Bool) (st : ChatState)
    (senderId receiverId text : String) (now : Nat) : DispatchResult :=
  let r1 := sendMessageHandler1 env st senderId receiverId text now
  let r2 := sendMessageHandler2 env onlineUsers r1.state senderId receiverId text now
  ⟨r2.state, r1.effects ++ r2.effects, r1.error.toList ++ r2.error.toList⟩

/-- `Message.findByIdAndUpdate(messageId, { read: true })`: set the
`read` path on the matching document; when no document matches, the call
resolves with null and no error is raised. -/
def findByIdAndUpdateRead (store : List Message) (mid : Nat) : List Message :=
  store.map (fun m => if m.id = mid then { m with read := some true } else m)

/-- One `markAsRead` listener body (part_004 lines 730-733, identically
827-830): await the update, then unconditionally
`io.emit("messageRead", { messageId })` — the emit is not guarded by
whether the document existed or was already read. -/
def markAsReadHandler (st : ChatState) (mid : Nat) : ChatState × List Effect :=
  ({ st with store := findByIdAndUpdateRead st.store mid }, [Effect.messageRead mid])

/-- One inbound `markAsRead` event: both connection blocks registered
the same listener body, so it runs twice. -/
def dispatchMarkAsRead (st : ChatState) (mid : Nat) : ChatState × List Effect :=
  ((markAsReadHandler (markAsReadHandler st mid).1 mid).1,
    (markAsReadHandler st mid).2 ++ (markAsReadHandler (markAsReadHandler st mid).1 mid).2)

/-- `joinRoom` listener (part_004 lines 702-706): compute the room id
and `socket.join` it.  There is no validation of either identifier and
no failure path. -/
def joinRoomHandler (st : ChatState) (senderId receiverId : String) : ChatState :=
  { st with joinedRooms := st.joinedRooms ++ [roomId senderId receiverId] }

/-- The `$or` filter of `GET /api/chat/:userId` (part_004 lines 742-747):
messages whose sender/receiver pair is the authenticated user and the
path parameter, in either orientation. -/
def chatFilter (uid other : String) (m : Message) : Bool :=
  (m.sender == uid && m.receiver == other) || (m.sender == other && m.receiver == uid)

/-- Chronological order on messages. -/
def tsLe (m1 m2 : Message) : Prop := m1.timestamp ≤ m2.timestamp

instance : DecidableRel tsLe := fun m1 m2 => Nat.decLe m1.timestamp m2.timestamp

instance : IsTotal Message tsLe := ⟨fun m1 m2 => Nat.le_total m1.timestamp m2.timestamp⟩

instance : IsTrans Message tsLe := ⟨fun _ _ _ h1 h2 => Nat.le_trans h1 h2⟩

/-- `GET /api/chat/:userId` (part_004 lines 741-750): the filtered
messages, sorted ascending by `timestamp` (`.sort({ timestamp: 1 })`). -/
def listBetween (store : List Message) (uid other : String) : List Message :=
  List.insertionSort tsLe (store.filter (chatFilter uid other))

/-- State with empty collections and zeroed counters. -/
def emptyState : ChatState := ⟨[], 0, 0, 0, [], []⟩

/-- Environment in which both the store and the email transport work. -/
def envOk : Env := ⟨true, true⟩

/-- Presence map with every participant offline. -/
def offlineAll : String → Bool := fun _ => false

/-- State whose `User` collection knows participant `u2`. -/
def stU2 : ChatState := ⟨[], 0, 0, 0, [⟨"u2", "u2@mail.example"⟩], []⟩

/-- State holding one message that already carries `read = some true`. -/
def stRead : ChatState := ⟨[⟨0, "u1", "u2", "hi", 5, some true⟩], 1, 1, 0, [], []⟩

/-- Lexicographic comparison is antisymmetric. -/
theorem lexLe_antisymm (as : List Char) :
    ∀ bs, lexLe as bs = true → lexLe bs as = true → as = bs := by
  induction as with
  | nil =>
    intro bs h1 h2
    cases bs with
    | nil => rfl
    | cons b bs => simp [lexLe] at h2
  | cons a as ih =>
    intro bs h1 h2
    cases bs with
    | nil => simp [lexLe] at h1
    | cons b bs =>
      by_cases hab : a < b
      · have hba : ¬ b < a := lt_asymm hab
        simp [lexLe, hab, hba] at h2
      · by_cases hba : b < a
        · simp [lexLe, hab, hba] at h1
        · have heq : a = b := le_antisymm (le_of_not_lt hba) (le_of_not_lt hab)
          subst heq
          simp [lexLe] at h1 h2
          rw [ih bs h1 h2]

/-- Lexicographic comparison is total. -/
theorem lexLe_total (as : List Char) :
    ∀ bs, lexLe as bs = true ∨ lexLe bs as = true := by
  induction as with
  | nil => intro bs; left; rfl
  | cons a as ih =>
    intro bs
    cases bs with
    | nil => right; rfl
    | cons b bs =>
      by_cases hab : a < b
      · left; simp [lexLe, hab]
      · by_cases hba : b < a
        · right; simp [lexLe, hba]
        · rcases ih bs with h | h
          · left; simp [lexLe, hab, hba, h]
          · right; simp [lexLe, hab, hba, h]

/-- Sorting a two-element array does not depend on the argument order. -/
theorem jsSortPair_comm (a b : String) : jsSortPair a b = jsSortPair b a := by
  unfold jsSortPair
  by_cases h1 : jsLe a b = true
  · by_cases h2 : jsLe b a = true
    · have heq : a = b := String.ext (lexLe_antisymm a.data b.data h1 h2)
      subst heq; rfl
    · simp [h1, h2]
  · have h2 : jsLe b a = true := by
      rcases lexLe_total a.data b.data with h | h
      · exact absurd h h1
      · exact h
    simp [h1, h2]

/-- The `read := true` update is the identity on a store in which every
document with the given id already has `read = some true`. -/
theorem update_id_of_read (store : List Message) (mid : Nat)
    (h : ∀ m ∈ store, m.id = mid → m.read = some true) :
    findByIdAndUpdateRead store mid = store := by
  unfold findByIdAndUpdateRead
  have h2 : ∀ m ∈ store, (if m.id = mid then { m with read := some true } else m) = id m := by
    intro m hm
    by_cases hid : m.id = mid
    · rw [if_pos hid]
      have h3 := h m hm hid
      cases m with
      | mk i s r t ts rd => simp at h3; simp [h3]
    · rw [if_neg hid]; rfl
  rw [List.map_congr_left h2, List.map_id]

/-- The `read := true` update is the identity on a store holding no
document with the given id. -/
theorem update_id_of_absent (store : List Message) (mid : Nat)
    (h : ∀ m ∈ store, m.id ≠ mid) :
    findByIdAndUpdateRead store mid = store := by
  unfold findByIdAndUpdateRead
  have h2 : ∀ m ∈ store, (if m.id = mid then { m with read := some true } else m) = id m := by
    intro m hm
    rw [if_neg (h m hm)]; rfl
  rw [List.map_congr_left h2, List.map_id]

/-- Claim C3: the conversation-key resolver is commutative — for all
participant identifiers `a` and `b`, `[a, b].sort().join("-")` equals
`[b, a].sort().join("-")`, so `joinRoom` and `sendMessage` compute the
same room identifier regardless of argument order. -/
theorem c3_roomId_comm (a b : String) : roomId a b = roomId b a := by
  unfold roomId
  rw [jsSortPair_comm]

/-- Claim C10: the room-identifier derivation is not injective on
distinct unordered pairs of non-empty identifiers — `{x, y-z}` and
`{x-y, z}` both derive the room identifier `x-y-z`, so events for one
conversation can be routed to another conversation's room. -/
theorem c10_roomId_collision :
    ∃ a b c d : String,
      roomId a b = roomId c d ∧ a ≠ "" ∧ b ≠ "" ∧ c ≠ "" ∧ d ≠ "" ∧
      ¬ ((a = c ∧ b = d) ∨ (a = d ∧ b = c)) :=
  ⟨"x", "y-z", "x-y", "z", by decide⟩

/-- Claim C9: for every pair of participants, `GET /api/chat/:userId`
returns exactly the stored messages between them (a permutation of the
`$or`-filtered store) in chronological order, ascending by timestamp. -/
theorem c9_listBetween_chronological (store : List Message) (uid other : String) :
    List.Sorted tsLe (listBetween store uid other) ∧
    (listBetween store uid other).Perm (store.filter (chatFilter uid other)) :=
  ⟨List.sorted_insertionSort tsLe (store.filter (chatFilter uid other)),
   List.perm_insertionSort tsLe (store.filter (chatFilter uid other))⟩

/-- Claim C1: if the Message Store rejects the `message.save()` append,
a `sendMessage` event produces no room broadcast, no direct emit and no
Notification Gateway invocation, and the store is unchanged — the send
fails atomically with no observable fan-out effect, in both registered
`sendMessage` listeners. -/
theorem c1_save_failure_atomic (env : Env) (onl : String → Bool) (st : ChatState)
    (senderId receiverId text : String) (now : Nat) (h : env.saveOk = false) :
    (dispatchSendMessage env onl st senderId receiverId text now).effects = [] ∧
    (dispatchSendMessage env onl st senderId receiverId text now).state.store = st.store ∧
    (dispatchSendMessage env onl st senderId receiverId text now).state.emailAttempts
      = st.emailAttempts := by
  cases hv : validMessage senderId receiverId text <;>
    simp [dispatchSendMessage, sendMessageHandler1, sendMessageHandler2, saveMessage, h, hv]

theorem c1_witness :
    (Env.mk false true).saveOk = false ∧
    ((dispatchSendMessage (Env.mk false true) offlineAll emptyState "u1" "u2" "hi" 5).effects = [] ∧
     (dispatchSendMessage (Env.mk false true) offlineAll emptyState "u1" "u2" "hi" 5).state.store
       = emptyState.store ∧
     (dispatchSendMessage (Env.mk false true) offlineAll emptyState "u1" "u2" "hi" 5).state.emailAttempts
       = emptyState.emailAttempts) :=
  ⟨rfl, c1_save_failure_atomic (Env.mk false true) offlineAll emptyState "u1" "u2" "hi" 5 rfl⟩

/-- Claim C8 as stated is false: the resolver/`joinRoom` performs no
validation — with the empty sender identifier, a conversation key
(`"-u2"`) is still produced and the room is still joined, and no
`InvalidParticipant` failure exists anywhere in the listener. -/
theorem c8_counterexample :
    (joinRoomHandler emptyState "" "u2").joinedRooms = ["-u2"] ∧
    (joinRoomHandler emptyState "" "u2").joinedRooms ≠ [] := by
  decide

/-- Claim C8 amended: the `joinRoom` listener never rejects an
identifier — for every pair of identifiers, empty or not, it derives the
sort-join key and unconditionally joins that room (the membership list
strictly grows); there is no `InvalidParticipant` error path. -/
theorem c8_amended (st : ChatState) (a b : String) :
    (joinRoomHandler st a b).joinedRooms = st.joinedRooms ++ [roomId a b] ∧
    (joinRoomHandler st a b).joinedRooms ≠ st.joinedRooms := by
  refine ⟨rfl, ?_⟩
  intro hcontra
  have hlen := congrArg List.length hcontra
  simp [joinRoomHandler] at hlen

/-- Claim C2 as stated is false: with `u2` offline, one `sendMessage`
event grows the Message Store by TWO entries — both registered
`sendMessage` listeners save — not exactly one, and the stored documents
carry no `read` field at all (the schema defines none), not
`read = false`. -/
theorem c2_counterexample :
    ¬ (dispatchSendMessage envOk offlineAll stU2 "u1" "u2" "hi" 5).state.store.length = 1 ∧
    (dispatchSendMessage envOk offlineAll stU2 "u1" "u2" "hi" 5).state.store =
      [⟨0, "u1", "u2", "hi", 5, none⟩, ⟨1, "u1", "u2", "hi", 5, none⟩] := by
  decide

/-- Claim C2 amended: for a valid `sendMessage(U1, U2, body)` processed
while `U2` has no live connection and `U2` exists in the `User`
collection, the Message Store gains exactly TWO entries
`{sender: U1, receiver: U2, text: body}` (one per registered listener),
each without a `read` field, and the Notification Gateway is invoked
exactly once, with `U2`'s stored email address and that body. -/
theorem c2_amended (st : ChatState) (onl : String → Bool) (u1 u2 body : String)
    (u : UserRec) (now : Nat)
    (honl : onl u2 = false)
    (hv : validMessage u1 u2 body = true)
    (hu : findById st.users u2 = some u) :
    (dispatchSendMessage envOk onl st u1 u2 body now).state.store =
      st.store ++ [⟨st.nextId, u1, u2, body, now, none⟩,
        ⟨st.nextId + 1, u1, u2, body, now, none⟩] ∧
    (dispatchSendMessage envOk onl st u1 u2 body now).effects.filter isEmailEffect =
      [Effect.email u.email body] ∧
    (dispatchSendMessage envOk onl st u1 u2 body now).state.emailAttempts =
      st.emailAttempts + 1 ∧
    (dispatchSendMessage envOk onl st u1 u2 body now).errors = [] := by
  simp [dispatchSendMessage, sendMessageHandler1, sendMessageHandler2, saveMessage,
    sendEmailNotification, envOk, honl, hv, hu, isEmailEffect]

theorem c2_witness :
    offlineAll "u2" = false ∧ validMessage "u1" "u2" "hi" = true ∧
    findById stU2.users "u2" = some ⟨"u2", "u2@mail.example"⟩ ∧
    ((dispatchSendMessage envOk offlineAll stU2 "u1" "u2" "hi" 5).state.store =
       stU2.store ++ [⟨stU2.nextId, "u1", "u2", "hi", 5, none⟩,
         ⟨stU2.nextId + 1, "u1", "u2", "hi", 5, none⟩] ∧
     (dispatchSendMessage envOk offlineAll stU2 "u1" "u2" "hi" 5).effects.filter isEmailEffect =
       [Effect.email (UserRec.mk "u2" "u2@mail.example").email "hi"] ∧
     (dispatchSendMessage envOk offlineAll stU2 "u1" "u2" "hi" 5).state.emailAttempts =
       stU2.emailAttempts + 1 ∧
     (dispatchSendMessage envOk offlineAll stU2 "u1" "u2" "hi" 5).errors = []) :=
  ⟨rfl, rfl, by decide,
   c2_amended stU2 offlineAll "u1" "u2" "hi" ⟨"u2", "u2@mail.example"⟩ 5 rfl rfl (by decide)⟩

/-- Claim C4 as stated is false: on a message whose `read` is already
`true`, a further `markAsRead` produces no state change (the update is
the identity) but it still emits `messageRead` broadcasts — the emit at
lines 732/829 is unconditional, so the second call does produce
additional read-state broadcasts. -/
theorem c4_counterexample :
    (dispatchMarkAsRead stRead 0).1 = stRead ∧ (dispatchMarkAsRead stRead 0).2 ≠ [] := by
  decide

/-- Claim C4 amended: `markAsRead` on an already-read message is
idempotent on the store (no state change), but every call — including a
repeated one — emits the `messageRead` broadcast again, once per
registered listener. -/
theorem c4_amended (st : ChatState) (mid : Nat)
    (h : ∀ m ∈ st.store, m.id = mid → m.read = some true) :
    (dispatchMarkAsRead st mid).1 = st ∧
    (dispatchMarkAsRead st mid).2 = [Effect.messageRead mid, Effect.messageRead mid] := by
  have h1 : findByIdAndUpdateRead st.store mid = st.store := update_id_of_read st.store mid h
  have hstep : markAsReadHandler st mid = (st, [Effect.messageRead mid]) := by
    simp [markAsReadHandler, h1]
  simp [dispatchMarkAsRead, hstep]

theorem c4_witness :
    (∀ m ∈ stRead.store, m.id = 0 → m.read = some true) ∧
    ((dispatchMarkAsRead stRead 0).1 = stRead ∧
     (dispatchMarkAsRead stRead 0).2 = [Effect.messageRead 0, Effect.messageRead 0]) :=
  ⟨by decide, c4_amended stRead 0 (by decide)⟩

/-- Claim C5 as stated is false: `markAsRead` on an id absent from the
Message Store does not surface any `NotFound` — `findByIdAndUpdate`
resolves with null and the listener has no failure path — and it still
emits the `messageRead` broadcast unconditionally. -/
theorem c5_counterexample :
    emptyState.store = [] ∧
    (dispatchMarkAsRead emptyState 99).2 ≠ [] ∧
    (dispatchMarkAsRead emptyState 99).2 =
      [Effect.messageRead 99, Effect.messageRead 99] := by
  decide

/-- Claim C5 amended: `markAsRead` on an id absent from the store
leaves the store unchanged, surfaces no error of any kind, and still
emits the `messageRead` broadcast, once per registered listener. -/
theorem c5_amended (st : ChatState) (mid : Nat)
    (h : ∀ m ∈ st.store, m.id ≠ mid) :
    (dispatchMarkAsRead st mid).1 = st ∧
    (dispatchMarkAsRead st mid).2 = [Effect.messageRead mid, Effect.messageRead mid] := by
  have h1 : findByIdAndUpdateRead st.store mid = st.store := update_id_of_absent st.store mid h
  have hstep : markAsReadHandler st mid = (st, [Effect.messageRead mid]) := by
    simp [markAsReadHandler, h1]
  simp [dispatchMarkAsRead, hstep]

theorem c5_witness :
    (∀ m ∈ emptyState.store, m.id ≠ 99) ∧
    ((dispatchMarkAsRead emptyState 99).1 = emptyState ∧
     (dispatchMarkAsRead emptyState 99).2 = [Effect.messageRead 99, Effect.messageRead 99]) :=
  ⟨by decide, c5_amended emptyState 99 (by decide)⟩

/-- Claim C6 as stated is false: a send with an empty body is not
rejected before a persistence attempt — the listener performs no
validation of its own, so `save()` is attempted (twice, once per
registered listener: the attempt counter goes from 0 to 2) and the
rejection is Mongoose required-field validation inside those attempts;
no message is stored. -/
theorem c6_counterexample :
    (dispatchSendMessage envOk offlineAll emptyState "u1" "u2" "" 5).state.saveAttempts = 2 ∧
    ¬ (dispatchSendMessage envOk offlineAll emptyState "u1" "u2" "" 5).state.saveAttempts = 0 ∧
    (dispatchSendMessage envOk offlineAll emptyState "u1" "u2" "" 5).state.store = [] ∧
    (dispatchSendMessage envOk offlineAll emptyState "u1" "u2" "" 5).errors =
      [ChatError.validationError, ChatError.validationError] := by
  decide

/-- Claim C6 amended: for every send in which sender, receiver or body
is empty, no Message is stored and nothing is broadcast or emailed, but
the rejection is not a pre-persistence `InvalidMessage` check: each of
the two registered listeners makes a `save()` attempt and the attempt is
rejected by the schema's required-field validation. -/
theorem c6_amended (env : Env) (onl : String → Bool) (st : ChatState)
    (senderId receiverId text : String) (now : Nat)
    (hv : validMessage senderId receiverId text = false) :
    (dispatchSendMessage env onl st senderId receiverId text now).state.store = st.store ∧
    (dispatchSendMessage env onl st senderId receiverId text now).effects = [] ∧
    (dispatchSendMessage env onl st senderId receiverId text now).errors =
      [ChatError.validationError, ChatError.validationError] ∧
    (dispatchSendMessage env onl st senderId receiverId text now).state.saveAttempts =
      st.saveAttempts + 2 := by
  simp [dispatchSendMessage, sendMessageHandler1, sendMessageHandler2, saveMessage, hv]

theorem c6_witness :
    validMessage "u1" "u2" "" = false ∧
    ((dispatchSendMessage envOk offlineAll emptyState "u1" "u2" "" 5).state.store =
       emptyState.store ∧
     (dispatchSendMessage envOk offlineAll emptyState "u1" "u2" "" 5).effects = [] ∧
     (dispatchSendMessage envOk offlineAll emptyState "u1" "u2" "" 5).errors =
       [ChatError.validationError, ChatError.validationError] ∧
     (dispatchSendMessage envOk offlineAll emptyState "u1" "u2" "" 5).state.saveAttempts =
       emptyState.saveAttempts + 2) :=
  ⟨rfl, c6_amended envOk offlineAll emptyState "u1" "u2" "" 5 rfl⟩

/-- Claim C7 as stated is false: a Notification Gateway failure is not
swallowed — the awaited `sendEmailNotification` call has no try/catch,
so the listener body rejects.  At the same input the outcome differs
between a working and a failing email transport, so the operation does
not observe "the same successful outcome". -/
theorem c7_counterexample :
    (dispatchSendMessage envOk offlineAll stU2 "u1" "u2" "hi" 5).errors = [] ∧
    (dispatchSendMessage (Env.mk true false) offlineAll stU2 "u1" "u2" "hi" 5).errors =
      [ChatError.emailError] := by
  decide

/-- Claim C7 amended: when the offline-notification step is taken and
the email transport fails, the failure propagates out of the
`sendMessage` listener as a rejection (an `emailError` in the event's
error list); by that point the message is already persisted — both
listeners' saves remain in the store — and the gateway was invoked once,
delivering nothing. -/
theorem c7_amended (st : ChatState) (onl : String → Bool) (u1 u2 body : String)
    (u : UserRec) (now : Nat)
    (honl : onl u2 = false)
    (hv : validMessage u1 u2 body = true)
    (hu : findById st.users u2 = some u) :
    (dispatchSendMessage (Env.mk true false) onl st u1 u2 body now).errors =
      [ChatError.emailError] ∧
    (dispatchSendMessage (Env.mk true false) onl st u1 u2 body now).state.store =
      st.store ++ [⟨st.nextId, u1, u2, body, now, none⟩,
        ⟨st.nextId + 1, u1, u2, body, now, none⟩] ∧
    (dispatchSendMessage (Env.mk true false) onl st u1 u2 body now).state.emailAttempts =
      st.emailAttempts + 1 ∧
    (dispatchSendMessage (Env.mk true false) onl st u1 u2 body now).effects.filter isEmailEffect
      = [] := by
  simp [dispatchSendMessage, sendMessageHandler1, sendMessageHandler2, saveMessage,
    sendEmailNotification, honl, hv, hu, isEmailEffect]

theorem c7_witness :
    offlineAll "u2" = false ∧ validMessage "u1" "u2" "hi" = true ∧
    findById stU2.users "u2" = some ⟨"u2", "u2@mail.example"⟩ ∧
    ((dispatchSendMessage (Env.mk true false) offlineAll stU2 "u1" "u2" "hi" 5).errors =
       [ChatError.emailError] ∧
     (dispatchSendMessage (Env.mk true false) offlineAll stU2 "u1" "u2" "hi" 5).state.store =
       stU2.store ++ [⟨stU2.nextId, "u1", "u2", "hi", 5, none⟩,
         ⟨stU2.nextId + 1, "u1", "u2", "hi", 5, none⟩] ∧
     (dispatchSendMessage (Env.mk true false) offlineAll stU2 "u1" "u2" "hi" 5).state.emailAttempts =
       stU2.emailAttempts + 1 ∧
     (dispatchSendMessage (Env.mk true false) offlineAll stU2 "u1" "u2" "hi" 5).effects.filter
       isEmailEffect = []) :=
  ⟨rfl, rfl, by decide,
   c7_amended stU2 offlineAll "u1" "u2" "hi" ⟨"u2", "u2@mail.example"⟩ 5 rfl rfl (by decide)⟩
